import Mathlib

/-!
Shallow embedding of the irrigation scheduler backend
(`src/backend/main.py`, `src/backend/models.py`, `src/backend/schemas.py`).

Python strings are modelled as Lean `String`; Python string methods
(`strip`, `lower`, `split`, `[:3]`, digit scanning) are embedded as
executable functions over the character list of the string, matching
Python semantics on the ASCII inputs this program handles.

`main.py` and `models.py` are from different iterations of the service and do
not fit together: the scheduler code reads `s.start`, `s.days`, `s.minutes`
and references `models.Run`, but `models.Schedule` maps only
`start_time`/`duration_minutes`/`enabled`/`last_run_minute` and `models.py`
defines `IrrigationRun`, no `Run`. The development therefore has two layers:

* the *as-written* layer (`Schedule`, `Run`, `tick`, …): `main.py`'s logic
  against the duck-typed records its code is written for. Behaviour proved
  here errs on the permissive side — it gives the tick the success path the
  composed program lacks — and is used only where that is conservative
  (upper bounds and absence properties) or where the function is pure and
  exactly as written (`parse_days`, `should_trigger_schedule`, `require_key`,
  the `schemas.py` validators).
* the *composed-program* layer (`SchedRow`, `RunRow`, `tick_real`, …):
  `main.py` run against `models.py` as shipped, where evaluating any enabled
  schedule raises `AttributeError` at `s.start`, `already_ran_recently` and
  every Run insert are unreachable (`models.Run` is undefined), and
  `build_kwargs` drops the unmapped `days` column on insert.
-/

namespace Irrigation

/-- Python `x or default` for an optional string: `None` and `""` are falsy. -/
def pyOr (s : Option String) (dflt : String) : String :=
  match s with
  | none => dflt
  | some v => if v = "" then dflt else v

/-- Python `str.lower()` (ASCII). -/
def sLower (s : String) : String :=
  ⟨s.data.map Char.toLower⟩

/-- Python whitespace test used by `str.strip()`. -/
def isSpace (c : Char) : Bool :=
  c = ' ' ∨ c = '\t' ∨ c = '\n' ∨ c = '\r'

/-- Python `str.strip()`: drop leading and trailing whitespace. -/
def sStrip (s : String) : String :=
  ⟨((s.data.dropWhile isSpace).reverse.dropWhile isSpace).reverse⟩

/-- Split a character list at every occurrence of the character `sep`
(Python `str.split(sep)` for a one-character separator). -/
def splitCharAux (sep : Char) : List Char → List Char → List String
  | [], acc => [⟨acc.reverse⟩]
  | c :: cs, acc =>
      if c = sep then ⟨acc.reverse⟩ :: splitCharAux sep cs []
      else splitCharAux sep cs (c :: acc)

/-- Python `str.split(sep)` for a one-character separator (e.g. `","`, `":"`). -/
def sSplit (sep : Char) (s : String) : List String :=
  splitCharAux sep s.data []

/-- Python slice `s[:n]`. -/
def sTake (n : Nat) (s : String) : String :=
  ⟨s.data.take n⟩

/-- The set of seven weekday abbreviations returned for the all-days sentinel. -/
def allDays : List String :=
  ["mon", "tue", "wed", "thu", "fri", "sat", "sun"]

/-- `parse_days` from `src/backend/main.py`:
`d = (days or "*").strip().lower()`; `"*"` or `""` yields all seven days,
otherwise the set of `x.strip()[:3]` over comma-separated non-empty tokens.
The Python `set` is modelled as a `List String` with membership semantics
(`dedup` mirrors set deduplication). -/
def parse_days (days : Option String) : List String :=
  let d := sLower (sStrip (pyOr days "*"))
  if d = "*" ∨ d = "" then allDays
  else (((sSplit ',' d).filter (fun x => sStrip x ≠ "")).map
          (fun x => sTake 3 (sStrip x))).dedup

/-- Drop everything up to and including the first occurrence of `pat`
(Python `s.split(pat, 1)[1]`); `none` when `pat` does not occur. -/
def afterFirst (pat : List Char) : List Char → Option (List Char)
  | [] => if pat = [] then some [] else none
  | c :: cs =>
      if pat.isPrefixOf (c :: cs) then some ((c :: cs).drop pat.length)
      else afterFirst pat cs

/-- Python `int` on a non-empty ASCII digit string. -/
def digitsToNat (cs : List Char) : Nat :=
  cs.foldl (fun n c => n * 10 + (c.toNat - 48)) 0

/-- `Zone` row (`src/backend/models.py`): id, unique name, free-text description. -/
structure Zone where
  id : Nat
  name : String
  description : Option String
deriving DecidableEq

/-- As-written layer: the duck-typed schedule record that the scheduler logic
in `src/backend/main.py` is written against (`s.enabled`, `s.start`,
`s.days`, `s.minutes`, `s.id`, `s.zone_id`), plus `last_run_minute` and the
moisture columns of `schemas.py`/`db.py` (the float threshold is modelled as
`Rat`). The `models.Schedule` actually shipped maps none of `start`, `days`,
`minutes` — that composed shape is `SchedRow` below. -/
structure Schedule where
  id : Nat
  zone_id : Nat
  start : Option String
  days : Option String
  minutes : Option Int
  enabled : Bool
  last_run_minute : Option String
  skip_if_moisture_over : Option Rat
  moisture_lookback_minutes : Int
deriving DecidableEq

/-- As-written layer: the Run row that `tick` and `manual_run` in
`src/backend/main.py` try to construct (`models.Run(zone_id=..., ...)`):
zone id, duration, source string, UTC timestamp (modelled in whole seconds).
`models.py` as shipped defines no `Run` class (only `IrrigationRun`, keyed by
`zone_name` — `RunRow` below), so in the composed program this construction
raises `AttributeError` instead. -/
structure Run where
  zone_id : Nat
  duration_minutes : Int
  source : String
  ts : Nat
deriving DecidableEq

/-- `SensorReading` row (`src/backend/models.py`): zone name, metric, value, ts. -/
structure SensorReading where
  zone_name : String
  metric : String
  value : Rat
  ts : Nat
deriving DecidableEq

/-- The persistent store visible to the tick/endpoint handlers. -/
structure TickState where
  zones : List Zone
  schedules : List Schedule
  runs : List Run
  readings : List SensorReading
deriving DecidableEq

/-- One tick's clock observations: `now_local().replace(second=0, microsecond=0)`
rendered via `strftime("%H:%M")` and `strftime("%a")`, plus `datetime.utcnow()`
as whole seconds since the epoch. -/
structure Clock where
  hhmm : String
  wdayName : String
  utc : Nat
deriving DecidableEq

/-- Little-endian decimal digit characters of `n`; the fuel argument makes the
division recursion structural (any fuel above `n` yields the full digit list). -/
def natToRevDigits : Nat → Nat → List Char
  | 0, _ => []
  | fuel + 1, n =>
      if n < 10 then [Char.ofNat (48 + n)]
      else Char.ofNat (48 + n % 10) :: natToRevDigits fuel (n / 10)

/-- Python `str(n)` for a natural number: decimal rendering. -/
def natRepr (n : Nat) : String :=
  ⟨(natToRevDigits (n + 1) n).reverse⟩

/-- The `source` string `f"schedule:{schedule_id}"`. -/
def runSource (sid : Nat) : String :=
  "schedule:" ++ natRepr sid

/-- `should_trigger_schedule` from `src/backend/main.py`: enabled check, exact
minute-string match on `(s.start or "").strip()`, then weekday membership of
`dt_local.strftime("%a").lower()[:3]` in `parse_days(s.days or "*")`. -/
def should_trigger_schedule (s : Schedule) (c : Clock) : Bool :=
  if !s.enabled then false
  else if sStrip (pyOr s.start "") ≠ c.hhmm then false
  else
    let day := sTake 3 (sLower c.wdayName)
    decide (day ∈ parse_days (some (pyOr s.days "*")))

/-- `already_ran_recently` from `src/backend/main.py`, as written: is there a
Run with `source == f"schedule:{schedule_id}"` and `ts >= utcnow - 90s`?
(`ts ≥ now - 90` over the integers is written `now ≤ ts + 90` over `Nat`.)
In the composed program this query raises `AttributeError` at `models.Run`;
the call is in any case unreachable there (see `should_trigger_real`). -/
def already_ran_recently (runs : List Run) (nowUtc : Nat) (sid : Nat) : Bool :=
  runs.any (fun r => r.source = runSource sid ∧ nowUtc ≤ r.ts + 90)

/-- `zone_default_minutes` from `src/backend/main.py`: scan
`(zone.description or "").lower()` for `"default="`, read the following run of
digits; `max(1, int(num))` when non-empty, else the fallback default 10. -/
def zone_default_minutes (zone : Zone) : Int :=
  match afterFirst "default=".data (sLower (pyOr zone.description "")).data with
  | none => 10
  | some part =>
      if part.takeWhile Char.isDigit = [] then 10
      else max 1 (Int.ofNat (digitsToNat (part.takeWhile Char.isDigit)))

/-- `db.query(models.Zone).filter(models.Zone.id == s.zone_id).first()`. -/
def findZone (zones : List Zone) (zid : Nat) : Option Zone :=
  zones.find? (fun z => z.id = zid)

/-- As-written layer: one iteration of the `for s in schedules` loop body of
`tick` (`src/backend/main.py`) run against the duck-typed records: matcher,
duplicate guard, zone lookup, duration fallback, then
`db.add(models.Run(...)); db.commit()`. This grants the loop the success path
the composed program lacks; theorems built on it are used only where that is
the conservative direction. -/
def processSchedule (c : Clock) (st : TickState) (s : Schedule) : TickState :=
  if !should_trigger_schedule s c then st
  else if already_ran_recently st.runs c.utc s.id then st
  else
    match findZone st.zones s.zone_id with
    | none => st
    | some zone =>
        let mins0 : Int := (s.minutes.getD 0)
        let mins : Int := if mins0 ≤ 0 then zone_default_minutes zone else mins0
        { st with runs := st.runs ++ [⟨zone.id, mins, runSource s.id, c.utc⟩] }

/-- As-written layer: `tick` from `src/backend/main.py` in the fault-free
execution the code was written for: load all schedules, process each in
order; each run insert is committed immediately, so later iterations observe
earlier inserts of the same tick. The composed program's tick, which aborts
with `AttributeError` at the first enabled schedule, is `tick_real` below. -/
def tick (c : Clock) (st : TickState) : TickState :=
  st.schedules.foldl (processSchedule c) st

def zoneVeg : Zone := ⟨1, "veggie-bed", some "beds | default=7"⟩

def schedVeg : Schedule :=
  ⟨1, 1, some "06:30", some "*", some 15, true, none, none, 120⟩

def stVeg : TickState := ⟨[zoneVeg], [schedVeg], [], []⟩

def clock0630a : Clock := ⟨"06:30", "Mon", 1000⟩
def clock0630b : Clock := ⟨"06:30", "Mon", 1030⟩

/-- Number of Run rows whose source is `"schedule:<sid>"`. -/
def countSrc (st : TickState) (sid : Nat) : Nat :=
  (st.runs.filter (fun r => r.source = runSource sid)).length

/-- `require_key` from `src/backend/main.py`: empty configured `API_KEY`
skips the check; otherwise compare `request.headers.get("x-api-key", "")`
against it and raise HTTP 401 on mismatch. -/
def require_key (apiKey : String) (headerKey : Option String) : Except Nat Unit :=
  if apiKey = "" then .ok ()
  else
    let key := headerKey.getD ""
    if key ≠ apiKey then .error 401 else .ok ()

/-- `POST /zones` (`create_zone` in `src/backend/main.py`): key check, then
insert the zone (`newId` models the autoincrement primary key). -/
def create_zone (apiKey : String) (hdr : Option String) (name description : String)
    (newId : Nat) (st : TickState) : Except Nat (TickState × Zone) :=
  match require_key apiKey hdr with
  | .error e => .error e
  | .ok _ =>
      let z : Zone := ⟨newId, name, some description⟩
      .ok ({ st with zones := st.zones ++ [z] }, z)

/-- As-written layer of `POST /schedules` (`create_schedule` in
`src/backend/main.py`), used below only for its key-check behaviour: key
check, then insert a row built from the raw query parameters (no validator
runs — the `ScheduleCreate` schema of `src/backend/schemas.py` is never
invoked). Under the duck-typed model all of `start`/`minutes`/`days` are
columns and survive `build_kwargs`; the composed program's insert, where
`build_kwargs` drops `days`, is `create_schedule_real` below. -/
def create_schedule (apiKey : String) (hdr : Option String) (zone_id : Nat)
    (start : String) (minutes : Int) (days : String) (enabled : Bool)
    (newId : Nat) (st : TickState) : Except Nat (TickState × Schedule) :=
  match require_key apiKey hdr with
  | .error e => .error e
  | .ok _ =>
      let sched : Schedule :=
        ⟨newId, zone_id, some start, some days, some minutes, enabled, none, none, 120⟩
      .ok ({ st with schedules := st.schedules ++ [sched] }, sched)

/-- As-written layer of `POST /run` (`manual_run` in `src/backend/main.py`),
used below only for its key-check behaviour: key check, 404 when the zone is
missing, `int(minutes or 0)` with the `<= 0` fallback to
`zone_default_minutes`, then insert a Run with `source="manual"`. The
composed program instead crashes at `cols(models.Run)` after resolving the
fallback — see `manual_run_real` below. -/
def manual_run (apiKey : String) (hdr : Option String) (zone_id : Nat)
    (minutes : Int) (tsUtc : Nat) (st : TickState) : Except Nat (TickState × Run) :=
  match require_key apiKey hdr with
  | .error e => .error e
  | .ok _ =>
      match findZone st.zones zone_id with
      | none => .error 404
      | some zone =>
          let mins : Int := if minutes ≤ 0 then zone_default_minutes zone else minutes
          let run : Run := ⟨zone_id, mins, "manual", tsUtc⟩
          .ok ({ st with runs := st.runs ++ [run] }, run)

/-- `DELETE /admin/schedules` (`reset_schedules` in `src/backend/main.py`). -/
def reset_schedules (apiKey : String) (hdr : Option String) (st : TickState) :
    Except Nat (TickState × Nat) :=
  match require_key apiKey hdr with
  | .error e => .error e
  | .ok _ => .ok ({ st with schedules := [] }, st.schedules.length)

/-- Python `str.isdigit()`: non-empty and all characters are digits. -/
def isDigits (s : String) : Bool :=
  s ≠ "" ∧ s.data.all Char.isDigit

/-- Python `f"{n:02d}"` for small naturals. -/
def pad2 (n : Nat) : String :=
  if n < 10 then "0" ++ toString n else toString n

/-- `ScheduleCreate.validate_start_time` from `src/backend/schemas.py`:
length-5 `HH:MM` shape, numeric parts, 24h range, canonical re-format.
A `v.split(":")` that does not yield exactly two parts makes the Python
tuple unpacking raise, which pydantic also reports as a validation error. -/
def validate_start_time (v : String) : Except String String :=
  if v.data.length ≠ 5 ∨ v.data.get? 2 ≠ some ':' then
    .error "start_time must be HH:MM"
  else
    match sSplit ':' v with
    | [hour, minute] =>
        if !(isDigits hour ∧ isDigits minute) then
          .error "start_time must be numeric HH:MM"
        else
          let h := digitsToNat hour.data
          let m := digitsToNat minute.data
          if 23 < h ∨ 59 < m then .error "start_time must be a valid 24h time"
          else .ok (pad2 h ++ ":" ++ pad2 m)
    | _ => .error "too many values to unpack"

/-- `ScheduleCreate.validate_duration` from `src/backend/schemas.py`. -/
def validate_duration (v : Int) : Except String Int :=
  if v < 1 ∨ 240 < v then .error "duration_minutes must be between 1 and 240"
  else .ok v

/-- Code-point comparison of characters (Python string ordering). -/
def charLe (a b : Char) : Bool :=
  a.toNat ≤ b.toNat

/-- Lexicographic code-point order on character lists (Python `str <=`). -/
def lexLe : List Char → List Char → Bool
  | [], _ => true
  | _ :: _, [] => false
  | a :: as, b :: bs => if a = b then lexLe as bs else charLe a b

/-- `ScheduleCreate.normalize_days` from `src/backend/schemas.py`: `"*"`
passes through, otherwise trim/lower the comma-separated tokens, reject
empties and unknown day names, and return the sorted deduplicated join. -/
def normalize_days (v : String) : Except String String :=
  if sStrip v = "*" then .ok "*"
  else
    let days := ((sSplit ',' v).filter (fun d => sStrip d ≠ "")).map
      (fun d => sLower (sStrip d))
    if days = [] then .error "days_of_week must not be empty"
    else if days.any (fun d => decide (d ∉ allDays)) then
      .error "Unsupported day values"
    else
      .ok (String.intercalate ","
        (days.dedup.insertionSort (fun a b => lexLe a.data b.data = true)))

/-- `ScheduleCreate.validate_lookback` from `src/backend/schemas.py`. -/
def validate_lookback (v : Int) : Except String Int :=
  if v < 15 ∨ 1440 < v then
    .error "moisture_lookback_minutes must be between 15 and 1440"
  else .ok v

/-! ## Supporting lemmas -/

/-- Value of a little-endian decimal digit list. -/
def revDigitsVal : List Char → Nat
  | [] => 0
  | c :: cs => (c.toNat - 48) + 10 * revDigitsVal cs

lemma charVal_of_lt (d : Nat) (hd : d < 10) : (Char.ofNat (48 + d)).toNat = 48 + d := by
  interval_cases d <;> decide

lemma revDigitsVal_natToRevDigits :
    ∀ (fuel n : Nat), n < fuel → revDigitsVal (natToRevDigits fuel n) = n := by
  intro fuel
  induction fuel with
  | zero => intro n hn; omega
  | succ fuel ih =>
      intro n hn
      by_cases h : n < 10
      · simp [natToRevDigits, h, revDigitsVal, charVal_of_lt n h]
      · have h10 : 10 ≤ n := Nat.le_of_not_lt h
        have hdiv : n / 10 < fuel := by
          have h1 : n / 10 < n := Nat.div_lt_self (by omega) (by omega)
          omega
        simp only [natToRevDigits, if_neg h, revDigitsVal]
        rw [ih (n / 10) hdiv, charVal_of_lt (n % 10) (Nat.mod_lt _ (by omega))]
        omega

lemma natRepr_inj {a b : Nat} (h : natRepr a = natRepr b) : a = b := by
  have hdata : (natToRevDigits (a + 1) a).reverse = (natToRevDigits (b + 1) b).reverse := by
    simpa [natRepr] using congrArg String.data h
  have hlists : natToRevDigits (a + 1) a = natToRevDigits (b + 1) b :=
    List.reverse_injective hdata
  have := congrArg revDigitsVal hlists
  rwa [revDigitsVal_natToRevDigits (a + 1) a (Nat.lt_succ_self a),
       revDigitsVal_natToRevDigits (b + 1) b (Nat.lt_succ_self b)] at this

lemma runSource_inj {a b : Nat} (h : runSource a = runSource b) : a = b := by
  apply natRepr_inj
  have hd : ("schedule:".data ++ (natRepr a).data)
      = ("schedule:".data ++ (natRepr b).data) := by
    simpa [runSource, String.data_append] using congrArg String.data h
  have : (natRepr a).data = (natRepr b).data := List.append_cancel_left hd
  cases ha : natRepr a
  cases hb : natRepr b
  simp_all

lemma zone_default_minutes_pos (z : Zone) : 1 ≤ zone_default_minutes z := by
  unfold zone_default_minutes
  split
  · norm_num
  · split
    · norm_num
    · exact le_max_left 1 _

lemma should_trigger_of_disabled {s : Schedule} (h : s.enabled = false) (c : Clock) :
    should_trigger_schedule s c = false := by
  simp [should_trigger_schedule, h]

lemma processSchedule_schedules (c : Clock) (st : TickState) (s : Schedule) :
    (processSchedule c st s).schedules = st.schedules := by
  unfold processSchedule
  split
  · rfl
  · split
    · rfl
    · split <;> rfl

lemma processSchedule_char (c : Clock) (st : TickState) (s : Schedule) :
    processSchedule c st s = st ∨
      (should_trigger_schedule s c = true ∧
       already_ran_recently st.runs c.utc s.id = false ∧
       ∃ zone mins, findZone st.zones s.zone_id = some zone ∧ 1 ≤ mins ∧
         processSchedule c st s =
           { st with runs := st.runs ++ [⟨zone.id, mins, runSource s.id, c.utc⟩] }) := by
  by_cases h1 : should_trigger_schedule s c = true
  · by_cases h2 : already_ran_recently st.runs c.utc s.id = true
    · left; simp [processSchedule, h1, h2]
    · have h2' : already_ran_recently st.runs c.utc s.id = false := by
        revert h2; cases already_ran_recently st.runs c.utc s.id <;> simp
      cases h3 : findZone st.zones s.zone_id with
      | none => left; simp [processSchedule, h1, h2', h3]
      | some zone =>
          right
          refine ⟨h1, h2', zone,
            (if (s.minutes.getD 0 : Int) ≤ 0 then zone_default_minutes zone
             else s.minutes.getD 0), rfl, ?_, ?_⟩
          · by_cases hm : (s.minutes.getD 0 : Int) ≤ 0
            · simpa [hm] using zone_default_minutes_pos zone
            · simp only [if_neg hm]; omega
          · simp [processSchedule, h1, h2', h3]
  · have h1' : should_trigger_schedule s c = false := by
      revert h1; cases should_trigger_schedule s c <;> simp
    left; simp [processSchedule, h1']

lemma mem_runs_processSchedule {c : Clock} {st : TickState} {s : Schedule} {r : Run}
    (h : r ∈ st.runs) : r ∈ (processSchedule c st s).runs := by
  rcases processSchedule_char c st s with heq | ⟨-, -, zone, mins, -, -, heq⟩
  · rw [heq]; exact h
  · rw [heq]; exact List.mem_append_left _ h

lemma already_iff (runs : List Run) (t sid : Nat) :
    already_ran_recently runs t sid = true ↔
      ∃ r ∈ runs, r.source = runSource sid ∧ t ≤ r.ts + 90 := by
  simp [already_ran_recently, List.any_eq_true]

lemma already_append_ne {r : Run} (runs : List Run) (t sid : Nat)
    (hne : r.source ≠ runSource sid) :
    already_ran_recently (runs ++ [r]) t sid = already_ran_recently runs t sid := by
  simp [already_ran_recently, List.any_append, hne]

lemma countSrc_append_one (st : TickState) (r : Run) (sid : Nat) :
    countSrc { st with runs := st.runs ++ [r] } sid
      = countSrc st sid + (if r.source = runSource sid then 1 else 0) := by
  by_cases h : r.source = runSource sid <;>
    simp [countSrc, List.filter_append, h]

lemma foldl_schedules (c : Clock) :
    ∀ (l : List Schedule) (acc : TickState),
      (l.foldl (processSchedule c) acc).schedules = acc.schedules := by
  intro l
  induction l with
  | nil => intro acc; rfl
  | cons s rest ih =>
      intro acc
      rw [List.foldl_cons, ih (processSchedule c acc s), processSchedule_schedules]

lemma tick_schedules (c : Clock) (st : TickState) :
    (tick c st).schedules = st.schedules :=
  foldl_schedules c st.schedules st

lemma foldl_runs_mono (c : Clock) :
    ∀ (l : List Schedule) (acc : TickState) {r : Run},
      r ∈ acc.runs → r ∈ (l.foldl (processSchedule c) acc).runs := by
  intro l
  induction l with
  | nil => intro acc r h; exact h
  | cons s rest ih =>
      intro acc r h
      rw [List.foldl_cons]
      exact ih _ (mem_runs_processSchedule h)

lemma foldl_countSrc (c : Clock) (sid : Nat) :
    ∀ (l : List Schedule) (acc : TickState),
      countSrc (l.foldl (processSchedule c) acc) sid = countSrc acc sid
      ∨ (countSrc (l.foldl (processSchedule c) acc) sid = countSrc acc sid + 1 ∧
         already_ran_recently acc.runs c.utc sid = false ∧
         ∃ r ∈ (l.foldl (processSchedule c) acc).runs,
           r.source = runSource sid ∧ r.ts = c.utc) := by
  intro l
  induction l with
  | nil => intro acc; left; rfl
  | cons s rest ih =>
      intro acc
      rw [List.foldl_cons]
      rcases processSchedule_char c acc s with heq | ⟨htr, hal, zone, mins, hz, hm, heq⟩
      · rw [heq]; exact ih acc
      · by_cases hsrc : runSource s.id = runSource sid
        · have hid : s.id = sid := runSource_inj hsrc
          rw [hid] at hal heq
          rw [heq]
          have hcnt : countSrc
              { acc with runs := acc.runs ++ [⟨zone.id, mins, runSource sid, c.utc⟩] } sid
              = countSrc acc sid + 1 := by
            rw [countSrc_append_one]; simp
          have hblocked : already_ran_recently
              ({ acc with runs := acc.runs ++ [⟨zone.id, mins, runSource sid, c.utc⟩]} :
                TickState).runs c.utc sid = true := by
            rw [already_iff]
            exact ⟨⟨zone.id, mins, runSource sid, c.utc⟩,
              List.mem_append_right _ (List.mem_singleton_self _), rfl,
              Nat.le_add_right c.utc 90⟩
          rcases ih { acc with runs := acc.runs ++ [⟨zone.id, mins, runSource sid, c.utc⟩] }
            with h1 | ⟨-, h2, -⟩
          · right
            refine ⟨by rw [h1, hcnt], hal, ⟨zone.id, mins, runSource sid, c.utc⟩, ?_, rfl, rfl⟩
            exact foldl_runs_mono c rest _
              (List.mem_append_right _ (List.mem_singleton_self _))
          · exact absurd hblocked (by simp [h2])
        · rw [heq]
          have hcnt : countSrc
              { acc with runs := acc.runs ++ [⟨zone.id, mins, runSource s.id, c.utc⟩] } sid
              = countSrc acc sid := by
            rw [countSrc_append_one]; simp [hsrc]
          have halready : already_ran_recently
              ({ acc with runs := acc.runs ++ [⟨zone.id, mins, runSource s.id, c.utc⟩]} :
                TickState).runs c.utc sid = already_ran_recently acc.runs c.utc sid :=
            already_append_ne acc.runs c.utc sid hsrc
          rcases ih { acc with runs := acc.runs ++ [⟨zone.id, mins, runSource s.id, c.utc⟩] }
            with h1 | ⟨h2, h3, h4⟩
          · left; rw [h1, hcnt]
          · right
            exact ⟨by rw [h2, hcnt], by rw [← halready]; exact h3, h4⟩

lemma tick_countSrc (c : Clock) (st : TickState) (sid : Nat) :
    countSrc (tick c st) sid = countSrc st sid
    ∨ (countSrc (tick c st) sid = countSrc st sid + 1 ∧
       already_ran_recently st.runs c.utc sid = false ∧
       ∃ r ∈ (tick c st).runs, r.source = runSource sid ∧ r.ts = c.utc) :=
  foldl_countSrc c sid st.schedules st

lemma tick_blocked (c : Clock) (st : TickState) (sid : Nat)
    (h : already_ran_recently st.runs c.utc sid = true) :
    countSrc (tick c st) sid = countSrc st sid := by
  rcases tick_countSrc c st sid with h1 | ⟨-, h2, -⟩
  · exact h1
  · exact absurd h (by simp [h2])

lemma tick_runs_mono (c : Clock) (st : TickState) {r : Run} (h : r ∈ st.runs) :
    r ∈ (tick c st).runs :=
  foldl_runs_mono c st.schedules st h

lemma ticks_window_inv (sid : Nat) (base k : Nat) :
    ∀ (clocks : List Clock) (acc : TickState),
      (∀ c ∈ clocks, base ≤ c.utc ∧ c.utc < base + 60) →
      (countSrc acc sid = k ∨
        (countSrc acc sid = k + 1 ∧
         ∃ r ∈ acc.runs, r.source = runSource sid ∧ base ≤ r.ts)) →
      (countSrc (clocks.foldl (fun a c => tick c a) acc) sid = k ∨
        (countSrc (clocks.foldl (fun a c => tick c a) acc) sid = k + 1 ∧
         ∃ r ∈ (clocks.foldl (fun a c => tick c a) acc).runs,
           r.source = runSource sid ∧ base ≤ r.ts)) := by
  intro clocks
  induction clocks with
  | nil => intro acc _ hinv; exact hinv
  | cons c rest ih =>
      intro acc hw hinv
      rw [List.foldl_cons]
      apply ih _ (fun c' hc' => hw c' (List.mem_cons_of_mem _ hc'))
      have hc := hw c (List.mem_cons_self _ _)
      rcases hinv with h1 | ⟨h2, r, hr, hsrc, hts⟩
      · rcases tick_countSrc c acc sid with t1 | ⟨t2, -, r, hrmem, hrsrc, hrts⟩
        · left; rw [t1, h1]
        · right
          exact ⟨by rw [t2, h1], r, hrmem, hrsrc, by rw [hrts]; exact hc.1⟩
      · have hblocked : already_ran_recently acc.runs c.utc sid = true := by
          rw [already_iff]
          exact ⟨r, hr, hsrc, by omega⟩
        right
        exact ⟨by rw [tick_blocked c acc sid hblocked]; exact h2,
          r, tick_runs_mono c acc hr, hsrc, hts⟩

/-! ## Claim theorems -/

/-- C1: for every schedule id and every wall-clock minute, across any number of
sequential `tick` invocations whose UTC instants all lie inside that one
minute (a 60-second window) and which all render the same minute-string, at
most one Run row with source `"schedule:<id>"` is inserted: the 90-second
lookback of `already_ran_recently` sees the run committed by the first
inserting tick. -/
theorem at_most_one_schedule_run_per_minute
    (sid : Nat) (st : TickState) (clocks : List Clock) (m : String) (base : Nat)
    (_hminute : ∀ c ∈ clocks, c.hhmm = m)
    (hwindow : ∀ c ∈ clocks, base ≤ c.utc ∧ c.utc < base + 60) :
    countSrc (clocks.foldl (fun acc c => tick c acc) st) sid
      ≤ countSrc st sid + 1 := by
  rcases ticks_window_inv sid base (countSrc st sid) clocks st hwindow (Or.inl rfl)
    with h | ⟨h, -⟩
  · omega
  · omega

/-- Witness for C1: two ticks at 06:30:05-ish and 06:30:35-ish insert at most
one `schedule:1` run. -/
theorem at_most_one_schedule_run_per_minute_witness :
    countSrc (List.foldl (fun acc c => tick c acc) stVeg [clock0630a, clock0630b]) 1
      ≤ countSrc stVeg 1 + 1 :=
  at_most_one_schedule_run_per_minute 1 stVeg [clock0630a, clock0630b] "06:30" 1000
    (by decide) (by decide)

lemma foldl_countSrc_of_disabled (c : Clock) (sid : Nat) :
    ∀ (l : List Schedule) (acc : TickState),
      (∀ s ∈ l, s.id = sid → s.enabled = false) →
      countSrc (l.foldl (processSchedule c) acc) sid = countSrc acc sid := by
  intro l
  induction l with
  | nil => intro acc _; rfl
  | cons s rest ih =>
      intro acc hdis
      rw [List.foldl_cons]
      have hrest : ∀ s' ∈ rest, s'.id = sid → s'.enabled = false :=
        fun s' h => hdis s' (List.mem_cons_of_mem _ h)
      rcases processSchedule_char c acc s with heq | ⟨htr, hal, zone, mins, hz, hm, heq⟩
      · rw [heq]; exact ih acc hrest
      · by_cases hid : s.id = sid
        · have hdisS := hdis s (List.mem_cons_self _ _) hid
          rw [should_trigger_of_disabled hdisS c] at htr
          cases htr
        · have hsrc : runSource s.id ≠ runSource sid := fun hh => hid (runSource_inj hh)
          rw [heq, ih _ hrest, countSrc_append_one]
          simp [hsrc]

/-- C6: when every schedule carrying a given id is disabled, a tick inserts no
Run with source `"schedule:<id>"` and leaves the schedules table (hence any
trigger marker) untouched. -/
theorem disabled_schedule_no_run_no_marker (c : Clock) (st : TickState) (sid : Nat)
    (hdis : ∀ s ∈ st.schedules, s.id = sid → s.enabled = false) :
    countSrc (tick c st) sid = countSrc st sid ∧
    (tick c st).schedules = st.schedules :=
  ⟨foldl_countSrc_of_disabled c sid st.schedules st hdis, tick_schedules c st⟩

def schedDis : Schedule := ⟨1, 1, some "06:30", some "*", some 15, false, none, none, 120⟩

def stDis : TickState := ⟨[zoneVeg], [schedDis], [], []⟩

/-- Witness for C6 at a concrete disabled schedule. -/
theorem disabled_schedule_no_run_no_marker_witness :
    countSrc (tick clock0630a stDis) 1 = countSrc stDis 1 ∧
    (tick clock0630a stDis).schedules = stDis.schedules :=
  disabled_schedule_no_run_no_marker clock0630a stDis 1 (by decide)

lemma parse_days_of_sentinel {d : String}
    (h : sLower (sStrip d) = "*" ∨ sLower (sStrip d) = "") :
    parse_days (some d) = allDays := by
  by_cases hd : d = ""
  · subst hd; rfl
  · unfold parse_days
    rw [show pyOr (some d) "*" = d from by simp [pyOr, hd]]
    rcases h with h | h <;> simp [h]

lemma parse_days_of_not_sentinel {d : String}
    (h1 : sLower (sStrip d) ≠ "*") (h2 : sLower (sStrip d) ≠ "") :
    parse_days (some d) =
      (((sSplit ',' (sLower (sStrip d))).filter (fun x => sStrip x ≠ "")).map
        (fun x => sTake 3 (sStrip x))).dedup := by
  have hd : d ≠ "" := by
    intro hh
    subst hh
    exact h2 rfl
  unfold parse_days
  rw [show pyOr (some d) "*" = d from by simp [pyOr, hd]]
  simp [h1, h2]

def weekdayNames : List String := ["Mon", "Tue", "Wed", "Thu", "Fri", "Sat", "Sun"]

lemma weekday_abbrev_mem (w : String) (hw : w ∈ weekdayNames) :
    sTake 3 (sLower w) ∈ allDays := by
  fin_cases hw <;> decide

/-- The all-days condition of `parse_days`: the trimmed, lowercased days field
is `"*"` or empty. -/
def isAllDaysSentinel (days : String) : Prop :=
  sLower (sStrip days) = "*" ∨ sLower (sStrip days) = ""

instance (d : String) : Decidable (isAllDaysSentinel d) := by
  unfold isAllDaysSentinel
  infer_instance

/-- C4 (amended): for a clock whose `%a` rendering is a real weekday name, the
matcher accepts a schedule iff it is enabled, its start-time string — after
trimming surrounding whitespace — equals the current `"HH:MM"` string, and
either the days field is the all-days sentinel or the current 3-letter
lowercase weekday abbreviation belongs to the parsed day set. (The original
claim's untrimmed "equals exactly" fails; see the counterexample.) -/
theorem matcher_accepts_iff (s : Schedule) (c : Clock)
    (hw : c.wdayName ∈ weekdayNames) :
    should_trigger_schedule s c = true ↔
      (s.enabled = true ∧ sStrip (pyOr s.start "") = c.hhmm ∧
        (isAllDaysSentinel (pyOr s.days "*") ∨
          sTake 3 (sLower c.wdayName) ∈ parse_days (some (pyOr s.days "*")))) := by
  unfold should_trigger_schedule
  by_cases he : s.enabled = true
  · by_cases hs : sStrip (pyOr s.start "") = c.hhmm
    · simp only [he, hs, Bool.not_true, Bool.false_eq_true, if_false, ne_eq,
        not_true_eq_false, decide_eq_true_eq, true_and]
      constructor
      · intro h
        exact Or.inr h
      · rintro (hsent | h)
        · rw [parse_days_of_sentinel hsent]
          exact weekday_abbrev_mem c.wdayName hw
        · exact h
    · simp [he, hs]
  · simp [he]

def schedMWF : Schedule := ⟨2, 1, some "06:30", some "mon,wed,fri", some 15, true, none, none, 120⟩

def clockTue : Clock := ⟨"06:30", "Tue", 2000⟩

/-- Witness for C4: with `days_of_week="mon,wed,fri"` evaluated on a Tuesday at
the matching start time, the matcher rejects. -/
theorem matcher_accepts_iff_witness :
    should_trigger_schedule schedMWF clockTue = false := by
  have h := matcher_accepts_iff schedMWF clockTue (by decide)
  cases hb : should_trigger_schedule schedMWF clockTue
  · rfl
  · exact absurd (h.mp hb) (by decide)

def schedPad : Schedule := ⟨3, 1, some " 06:30", some "*", some 15, true, none, none, 120⟩

/-- C4 counterexample: a schedule whose start-time string is `" 06:30"` (with a
leading space) is accepted at minute `"06:30"` although its start-time string
does not equal the current `"HH:MM"` string — the code strips before
comparing, so the claimed exact string equality is not required. -/
theorem matcher_exact_equality_counterexample :
    should_trigger_schedule schedPad clock0630a = true ∧
    pyOr schedPad.start "" ≠ clock0630a.hhmm := by decide

/-- C9: `parse_days` yields the full seven-day set when the trimmed lowercased
input is `"*"` or empty; otherwise its members are exactly the 3-character
prefixes of the trimmed lowercased non-empty comma-separated tokens (so
`"monday"` contributes `"mon"`); and any string shorter than three characters
is never a weekday abbreviation, hence such tokens can never match. -/
theorem parse_days_spec (days : String) :
    ((sLower (sStrip days) = "*" ∨ sLower (sStrip days) = "") →
        parse_days (some days) = allDays)
  ∧ (sLower (sStrip days) ≠ "*" → sLower (sStrip days) ≠ "" →
      ∀ x, x ∈ parse_days (some days) ↔
        ∃ t ∈ sSplit ',' (sLower (sStrip days)),
          sStrip t ≠ "" ∧ x = sTake 3 (sStrip t))
  ∧ (∀ t : String, t.length < 3 → t ∉ allDays) := by
  refine ⟨fun h => parse_days_of_sentinel h, fun h1 h2 x => ?_, fun t ht hmem => ?_⟩
  · rw [parse_days_of_not_sentinel h1 h2]
    simp only [List.mem_dedup, List.mem_map, List.mem_filter, decide_eq_true_eq]
    constructor
    · rintro ⟨t, ⟨htl, htp⟩, rfl⟩
      exact ⟨t, htl, htp, rfl⟩
    · rintro ⟨t, htl, htp, rfl⟩
      exact ⟨t, ⟨htl, htp⟩, rfl⟩
  · fin_cases hmem <;> revert ht <;> decide

/-- Witness for C9: the sentinel, a full-name token contributing its 3-letter
prefix, and a too-short token that is not a weekday abbreviation. -/
theorem parse_days_spec_witness :
    parse_days (some " * ") = allDays ∧
    "mon" ∈ parse_days (some "monday,tu") ∧
    "tu" ∉ allDays := by
  refine ⟨(parse_days_spec " * ").1 (by decide), ?_,
    (parse_days_spec " * ").2.2 "tu" (by decide)⟩
  exact ((parse_days_spec "monday,tu").2.1 (by decide) (by decide) "mon").mpr
    ⟨"monday", by decide, by decide, by decide⟩

/-- C10: the API-key check raises HTTP 401 exactly when the configured key is
non-empty and the request's `x-api-key` header (absent ↦ `""`) differs from
it; with an empty configured key the check always passes and the write
endpoints (zone creation, schedule creation, manual run, admin schedule
deletion) never reject a request as unauthorized. -/
theorem api_key_check (apiKey : String) (hdr : Option String) :
    (require_key apiKey hdr = .error 401 ↔ apiKey ≠ "" ∧ hdr.getD "" ≠ apiKey)
  ∧ (apiKey = "" →
      require_key apiKey hdr = .ok () ∧
      (∀ name desc nid st, ∃ res, create_zone apiKey hdr name desc nid st = .ok res) ∧
      (∀ zid v m d en nid st, ∃ res,
        create_schedule apiKey hdr zid v m d en nid st = .ok res) ∧
      (∀ zid mnts ts st, manual_run apiKey hdr zid mnts ts st ≠ .error 401) ∧
      (∀ st, ∃ res, reset_schedules apiKey hdr st = .ok res)) := by
  constructor
  · by_cases hk : apiKey = ""
    · simp [require_key, hk]
    · by_cases hh : hdr.getD "" = apiKey
      · simp [require_key, hk, hh]
      · simp [require_key, hk, hh]
  · intro hk
    subst hk
    refine ⟨by simp [require_key], fun name desc nid st => ⟨_, rfl⟩,
      fun zid v m d en nid st => ⟨_, rfl⟩, fun zid mnts ts st => ?_, fun st => ⟨_, rfl⟩⟩
    cases h : findZone st.zones zid <;> simp [manual_run, require_key, h]

/-- Witness for C10: a wrong header against a configured key is rejected with
401; an empty configured key passes. -/
theorem api_key_check_witness :
    require_key "secret" (some "wrong") = .error 401 ∧
    require_key "" none = .ok () :=
  ⟨(api_key_check "secret" (some "wrong")).1.mpr (by decide),
   ((api_key_check "" none).2 rfl).1⟩

/-! ## Composed-program layer: `main.py` against `models.py` as shipped -/

/-- The Python exception class relevant here: attribute access on a missing
ORM attribute (`s.start`, `s.days`, `s.minutes`, `models.Run`). -/
inductive PyErr where
  | attributeError
deriving DecidableEq

/-- `schedules` table row of the composed program: the columns mapped in
`src/backend/models.py` (`id`, `zone_id`, `start_time`, `duration_minutes`,
`enabled`, `last_run_minute`) plus the unmapped columns added to the table by
`ensure_sqlite_schema` in `src/backend/db.py` (`days_of_week`, DB default
`'*'`; `skip_if_moisture_over`; `moisture_lookback_minutes`, default 120).
The ORM object exposes only the mapped subset, so `s.start`, `s.days` and
`s.minutes` raise `AttributeError` on such a row. -/
structure SchedRow where
  id : Nat
  zone_id : Nat
  start_time : String
  duration_minutes : Int
  enabled : Bool
  last_run_minute : Option String
  days_of_week : String
  skip_if_moisture_over : Option Rat
  moisture_lookback_minutes : Int
deriving DecidableEq

/-- `irrigation_runs` row (`models.IrrigationRun`): keyed by `zone_name`.
`models.py` defines no `Run` class, so nothing in `main.py` can insert here. -/
structure RunRow where
  zone_name : String
  duration_minutes : Int
  source : String
  ts : Nat
deriving DecidableEq

/-- Store contents of the composed program. -/
structure RealState where
  zones : List Zone
  schedules : List SchedRow
  runs : List RunRow
  readings : List SensorReading
deriving DecidableEq

/-- `should_trigger_schedule` applied to a real `models.Schedule` row:
`if not s.enabled: return False` returns normally for a disabled row, but for
an enabled one the next comparison evaluates `s.start`, which the ORM does
not map, raising `AttributeError`. -/
def should_trigger_real (s : SchedRow) (_c : Clock) : Except PyErr Bool :=
  if !s.enabled then .ok false
  else .error .attributeError

/-- The `for s in schedules` loop of `tick` in the composed program, with
exception propagation. A raised evaluation fault carries the state reached so
far (no write was begun: the `db.add`/`db.commit` lines sit beyond
`already_ran_recently` and the zone lookup, which are unreachable —
`already_ran_recently` itself dereferences the undefined `models.Run`, which
is why the `.ok true` branch, itself never produced by
`should_trigger_real`, would also raise). The `List Nat` is a ghost log of
the ids whose evaluation was begun, used to state which schedules a tick
actually examined. -/
def tickLoopReal (c : Clock) : RealState → List SchedRow →
    Except (RealState × List Nat) (RealState × List Nat)
  | st, [] => .ok (st, [])
  | st, s :: rest =>
      match should_trigger_real s c with
      | .error _ => .error (st, [s.id])
      | .ok true => .error (st, [s.id])
      | .ok false =>
          match tickLoopReal c st rest with
          | .ok p => .ok (p.1, s.id :: p.2)
          | .error p => .error (p.1, s.id :: p.2)

/-- `tick` of the composed program: the whole loop inside one `try`; any
exception is swallowed after `db.rollback()` (which has nothing to discard),
so the function returns and the APScheduler timer keeps firing. Returns the
final store plus the ghost evaluation log. -/
def tick_real (c : Clock) (st : RealState) : RealState × List Nat :=
  match tickLoopReal c st st.schedules with
  | .ok p => p
  | .error p => p

/-- Outcome of the composed `POST /run`: an HTTP error response (401/404), or
the HTTP 500 produced by the uncaught `AttributeError` at `cols(models.Run)`;
`serverError` records the fallback duration the handler had resolved before
crashing (a ghost value — it is never persisted). -/
inductive ManualOutcome where
  | http (code : Nat)
  | serverError (resolvedMins : Int)
deriving DecidableEq

/-- `manual_run` of the composed program: key check and zone lookup succeed
as written, the `minutes or 0` / `<= 0` fallback to `zone_default_minutes`
is computed, and then `cols(models.Run)` raises `AttributeError` — the
endpoint answers HTTP 500 and persists nothing. -/
def manual_run_real (apiKey : String) (hdr : Option String) (zone_id : Nat)
    (minutes : Int) (st : RealState) : ManualOutcome × RealState :=
  match require_key apiKey hdr with
  | .error e => (.http e, st)
  | .ok _ =>
      match findZone st.zones zone_id with
      | none => (.http 404, st)
      | some zone =>
          let mins : Int := if minutes ≤ 0 then zone_default_minutes zone else minutes
          (.serverError mins, st)

/-- `create_schedule` of the composed program: key check, then the column
probing against `models.Schedule`: `start` lands in `start_time` and
`minutes` in `duration_minutes` (both raw — no validator runs), while `days`
is put into `data` but dropped by `build_kwargs` (`days` is not a mapped
column), so the inserted row keeps the DB defaults for the unmapped columns
(`days_of_week = "*"`, no threshold, lookback 120) and `last_run_minute`
NULL. -/
def create_schedule_real (apiKey : String) (hdr : Option String) (zone_id : Nat)
    (start : String) (minutes : Int) (_days : String) (enabled : Bool)
    (newId : Nat) (st : RealState) : Except Nat (RealState × SchedRow) :=
  match require_key apiKey hdr with
  | .error e => .error e
  | .ok _ =>
      let row : SchedRow := ⟨newId, zone_id, start, minutes, enabled, none, "*", none, 120⟩
      .ok ({ st with schedules := st.schedules ++ [row] }, row)

def schedRowVeg : SchedRow := ⟨1, 1, "06:30", 15, true, none, "*", none, 120⟩

def schedRow2 : SchedRow := ⟨2, 2, "06:30", 20, true, none, "*", none, 120⟩

def schedRowMoist : SchedRow := ⟨1, 1, "06:30", 15, true, none, "*", some 40, 120⟩

def stRealVeg : RealState := ⟨[zoneVeg], [schedRowVeg], [], []⟩

def stRealTwo : RealState := ⟨[zoneVeg], [schedRowVeg, schedRow2], [], []⟩

def stRealMoist : RealState := ⟨[zoneVeg], [schedRowMoist], [], []⟩

lemma tickLoopReal_state (c : Clock) :
    ∀ (l : List SchedRow) (st : RealState) (p : RealState × List Nat),
      tickLoopReal c st l = .ok p ∨ tickLoopReal c st l = .error p → p.1 = st := by
  intro l
  induction l with
  | nil =>
      rintro st p (h | h)
      · cases h; rfl
      · cases h
  | cons s rest ih =>
      intro st p hp
      by_cases he : s.enabled = true
      · have hred : tickLoopReal c st (s :: rest) = .error (st, [s.id]) := by
          simp [tickLoopReal, should_trigger_real, he]
        rcases hp with h | h
        · rw [hred] at h; cases h
        · rw [hred] at h
          cases h
          rfl
      · have he' : s.enabled = false := by
          revert he; cases s.enabled <;> simp
        cases hrec : tickLoopReal c st rest with
        | ok q =>
            have hred : tickLoopReal c st (s :: rest) = .ok (q.1, s.id :: q.2) := by
              simp [tickLoopReal, should_trigger_real, he', hrec]
            rcases hp with h | h
            · rw [hred] at h
              cases h
              exact ih st q (Or.inl hrec)
            · rw [hred] at h; cases h
        | error q =>
            have hred : tickLoopReal c st (s :: rest) = .error (q.1, s.id :: q.2) := by
              simp [tickLoopReal, should_trigger_real, he', hrec]
            rcases hp with h | h
            · rw [hred] at h; cases h
            · rw [hred] at h
              cases h
              exact ih st q (Or.inr hrec)

lemma tick_real_state (c : Clock) (st : RealState) : (tick_real c st).1 = st := by
  unfold tick_real
  cases h : tickLoopReal c st st.schedules with
  | ok p => exact tickLoopReal_state c st.schedules st p (Or.inl h)
  | error p => exact tickLoopReal_state c st.schedules st p (Or.inr h)

/-- C2 (amended): the tick never sets `last_run_minute`: evaluating any
enabled schedule raises `AttributeError` at `s.start` (the ORM maps
`start_time`, not `start`), aborting the batch before any handling, so the
schedules table is never written and `last_run_minute` keeps its prior value
after every tick. -/
theorem tick_real_never_updates_marker (c : Clock) (st : RealState) :
    (tick_real c st).1.schedules = st.schedules := by
  rw [tick_real_state]

/-- C2 counterexample: the spec's own scenario — an enabled schedule with
`start_time = "06:30"` and a tick at local 06:30. Evaluating the schedule
raises `AttributeError`; after the tick the store is unchanged, so
`last_run_minute` is still NULL rather than `"06:30"` (and no Run exists). -/
theorem last_run_minute_never_set_counterexample :
    schedRowVeg.enabled = true ∧
    schedRowVeg.start_time = clock0630a.hhmm ∧
    should_trigger_real schedRowVeg clock0630a = .error .attributeError ∧
    (tick_real clock0630a stRealVeg).1 = stRealVeg ∧
    schedRowVeg.last_run_minute ≠ some "06:30" ∧
    (tick_real clock0630a stRealVeg).1.runs = [] :=
  ⟨rfl, rfl, rfl, by decide, by decide, by decide⟩

/-- C3 (amended): the tick performs no moisture evaluation and can create no
Run at all — evaluating any enabled schedule raises before the guard, zone
lookup or insert — so its run table is unchanged regardless of the contents
of the sensor-reading table. In particular, in the fail-open situation (gate
configured, no reading in the window) no Run is created either, contrary to
the claimed iff. -/
theorem tick_real_ignores_readings (c : Clock) (st : RealState)
    (rs : List SensorReading) :
    (tick_real c { st with readings := rs }).1.runs = st.runs := by
  rw [tick_real_state]

/-- C3 counterexample: a moisture gate is configured (threshold 40 in the DB
column) and no reading exists in the lookback window, so the claim demands a
Run (fail-open), but the matching tick inserts nothing. -/
theorem moisture_fail_open_counterexample :
    schedRowMoist.skip_if_moisture_over = some 40 ∧
    schedRowMoist.enabled = true ∧
    schedRowMoist.start_time = clock0630a.hhmm ∧
    stRealMoist.readings = [] ∧
    (tick_real clock0630a stRealMoist).1.runs = [] :=
  ⟨rfl, rfl, rfl, rfl, by decide⟩

/-- C5 (amended): a fault while evaluating one schedule aborts the remaining
tick batch — the single `try/except` wraps the whole loop, so the loop stops
at the faulting schedule with the state intact and later schedules are never
evaluated (in this program the fault fires for every enabled schedule:
`AttributeError` at `s.start`) — but the exception is swallowed, the tick
returns normally, and the periodic timer keeps firing. -/
theorem fault_aborts_remaining_batch :
    (∀ (c : Clock) (acc : RealState) (s : SchedRow) (rest : List SchedRow) (e : PyErr),
        should_trigger_real s c = .error e →
        tickLoopReal c acc (s :: rest) = .error (acc, [s.id]))
  ∧ (∀ (c : Clock) (st : RealState), (tick_real c st).1 = st) := by
  constructor
  · intro c acc s rest e h
    simp only [tickLoopReal]
    rw [h]
  · exact tick_real_state

/-- Witness for C5: the concrete two-schedule batch aborts at its head and
the tick returns the unchanged store. -/
theorem fault_aborts_remaining_batch_witness :
    tickLoopReal clock0630a stRealTwo (schedRowVeg :: [schedRow2])
      = .error (stRealTwo, [1]) ∧
    (tick_real clock0630a stRealTwo).1 = stRealTwo :=
  ⟨fault_aborts_remaining_batch.1 clock0630a stRealTwo schedRowVeg [schedRow2]
      .attributeError rfl,
   fault_aborts_remaining_batch.2 clock0630a stRealTwo⟩

/-- C5 counterexample: two enabled schedules; evaluating the first raises
`AttributeError`, and the second is never evaluated — its id is absent from
the tick's evaluation log — refuting per-schedule isolation (the tick still
returns normally). -/
theorem fault_not_isolated_counterexample :
    should_trigger_real schedRowVeg clock0630a = .error .attributeError ∧
    schedRow2 ∈ stRealTwo.schedules ∧
    schedRow2.enabled = true ∧
    (tick_real clock0630a stRealTwo).2 = [1] ∧
    schedRow2.id ∉ (tick_real clock0630a stRealTwo).2 :=
  ⟨rfl, by decide, rfl, by decide, by decide⟩

/-- C7 (code bug): a manual run with `minutes = 0` resolves the documented
positive fallback (`zone_default_minutes`, always ≥ 1) exactly as the claim
describes, but then crashes at `cols(models.Run)` — HTTP 500 with the store
unchanged, so no Run (zero-duration or otherwise) is persisted; the scheduled
fallback path is likewise unreachable. -/
theorem manual_run_crashes_before_persisting :
    (∀ (apiKey : String) (hdr : Option String) (zid : Nat) (st : RealState)
        (zone : Zone),
        require_key apiKey hdr = .ok () →
        findZone st.zones zid = some zone →
        manual_run_real apiKey hdr zid 0 st
          = (.serverError (zone_default_minutes zone), st))
  ∧ (∀ (apiKey : String) (hdr : Option String) (zid : Nat) (m : Int)
        (st : RealState), (manual_run_real apiKey hdr zid m st).2 = st)
  ∧ (∀ z : Zone, 1 ≤ zone_default_minutes z) := by
  refine ⟨?_, ?_, zone_default_minutes_pos⟩
  · intro apiKey hdr zid st zone hk hz
    unfold manual_run_real
    rw [hk, hz]
    simp
  · intro apiKey hdr zid m st
    unfold manual_run_real
    cases hrk : require_key apiKey hdr with
    | error e => rfl
    | ok u =>
        cases hz : findZone st.zones zid with
        | none => rfl
        | some zone => rfl

/-- Witness for C7: zone 1 (`"beds | default=7"`) exists and the key is
unset; `minutes = 0` resolves the fallback but the endpoint 500s with the
store unchanged. -/
theorem manual_run_crashes_before_persisting_witness :
    manual_run_real "" none 1 0 stRealVeg
      = (.serverError (zone_default_minutes zoneVeg), stRealVeg) ∧
    (manual_run_real "" none 1 5 stRealVeg).2 = stRealVeg ∧
    1 ≤ zone_default_minutes zoneVeg :=
  ⟨manual_run_crashes_before_persisting.1 "" none 1 stRealVeg zoneVeg rfl rfl,
   manual_run_crashes_before_persisting.2.1 "" none 1 5 stRealVeg,
   manual_run_crashes_before_persisting.2.2 zoneVeg⟩

/-- C8 (amended): the `ScheduleCreate` validators of `schemas.py` do reject
malformed start times, out-of-range durations and unknown weekday tokens, but
`POST /schedules` never invokes them: with the key check passing it persists
the raw `start`/`minutes` verbatim into `start_time`/`duration_minutes`,
silently drops the requested `days` (the stored `days_of_week` keeps the DB
default `"*"`), and the row lands in the schedule list the tick iterates. -/
theorem schedule_validation_bypassed :
    (∀ (zid : Nat) (v : String) (m : Int) (d : String) (en : Bool) (nid : Nat)
        (st : RealState), ∃ st2 row,
        create_schedule_real "" none zid v m d en nid st = .ok (st2, row) ∧
        st2.schedules = st.schedules ++ [row] ∧
        row.start_time = v ∧ row.duration_minutes = m ∧ row.days_of_week = "*")
  ∧ validate_start_time "99:99" = .error "start_time must be a valid 24h time"
  ∧ validate_duration 0 = .error "duration_minutes must be between 1 and 240"
  ∧ normalize_days "funday" = .error "Unsupported day values" :=
  ⟨fun zid v m d en nid st => ⟨_, _, rfl, rfl, rfl, rfl, rfl⟩, rfl, rfl, rfl⟩

/-- C8 counterexample: a creation request with malformed start time `"99:99"`,
zero duration and unknown weekday `"funday"` is not rejected: the endpoint
succeeds, the malformed start time and duration are persisted verbatim, the
`days` value is dropped in favour of the column default `"*"`, and the row is
in the schedule list the tick evaluates. -/
theorem schedule_validation_counterexample :
    ∃ st2 row,
      create_schedule_real "" none 1 "99:99" 0 "funday" true 2 stRealVeg
        = .ok (st2, row) ∧
      row ∈ st2.schedules ∧
      row.start_time = "99:99" ∧ row.duration_minutes = 0 ∧
      row.days_of_week = "*" ∧ row.days_of_week ≠ "funday" :=
  ⟨{ stRealVeg with schedules :=
      stRealVeg.schedules ++ [⟨2, 1, "99:99", 0, true, none, "*", none, 120⟩] },
   ⟨2, 1, "99:99", 0, true, none, "*", none, 120⟩,
   rfl, by decide, rfl, rfl, rfl, by decide⟩

end Irrigation
